import Mathlib

/-!
Verification development for the nwkatk-netmon collection/export pipeline.

The definitions below are shallow embeddings of the Python source under
`nwkatk_netmon/`: pure functions become Lean functions, effectful code
becomes explicit action/log traces, the wall clock becomes an explicit
stream of timestamp values, and Python floats are modelled as rationals.
-/

/-! ## Threshold classifier (`collectors/ifdom/eapi.py`, `_threshold_outside`) -/

/-- The per-measurement threshold 4-tuple as delivered inside the
`details` dictionary of the EAPI transceiver output. -/
structure Thresholds where
  lowAlarm : ℚ
  lowWarn : ℚ
  highWarn : ℚ
  highAlarm : ℚ
deriving DecidableEq

/-- The ordering the spec's data model assumes for a threshold set:
`lowAlarm ≤ lowWarn ≤ highWarn ≤ highAlarm`. -/
def Thresholds.ordered (t : Thresholds) : Prop :=
  t.lowAlarm ≤ t.lowWarn ∧ t.lowWarn ≤ t.highWarn ∧ t.highWarn ≤ t.highAlarm

instance (t : Thresholds) : Decidable t.ordered := by
  unfold Thresholds.ordered; infer_instance

/-- Embedding of `_threshold_outside` from `collectors/ifdom/eapi.py`:
status 2 when at or beyond an alarm threshold, else 1 when at or beyond a
warn threshold, else 0. -/
def threshold_outside (value : ℚ) (t : Thresholds) : ℕ :=
  if value ≤ t.lowAlarm ∨ value ≥ t.highAlarm then 2
  else if value ≤ t.lowWarn ∨ value ≥ t.highWarn then 1
  else 0

/-- Modelled from the spec: the classifier contract of §4.1, transcribed
from the spec's pseudocode (boundary-inclusive, alarm checked before
warn), used to compare the source classifier against the spec's words. -/
def classifySpec (value : ℚ) (t : Thresholds) : ℕ :=
  if value ≤ t.lowAlarm ∨ value ≥ t.highAlarm then 2
  else if value ≤ t.lowWarn ∨ value ≥ t.highWarn then 1
  else 0

/-- Claim C1 (corrected): the classifier agrees with the spec's
pseudocode everywhere, `classify(lowAlarm) = 2` and
`classify(highAlarm) = 2` hold unconditionally, `classify(lowWarn) = 1`
holds when `lowAlarm < lowWarn` and additionally `lowWarn < highAlarm`,
and the midpoint of `(lowWarn, highWarn)` classifies to 0 for an ordered
threshold set with `lowWarn < highWarn`. -/
theorem c1_classifier_boundaries (t : Thresholds) :
    (∀ v : ℚ, threshold_outside v t = classifySpec v t) ∧
    threshold_outside t.lowAlarm t = 2 ∧
    threshold_outside t.highAlarm t = 2 ∧
    (t.lowAlarm < t.lowWarn → t.lowWarn < t.highAlarm →
      threshold_outside t.lowWarn t = 1) ∧
    (t.ordered → t.lowWarn < t.highWarn →
      threshold_outside ((t.lowWarn + t.highWarn) / 2) t = 0) := by
  refine ⟨fun v => rfl, ?_, ?_, ?_, ?_⟩
  · simp [threshold_outside]
  · simp [threshold_outside]
  · intro h1 h2
    rw [threshold_outside]
    rw [if_neg (by push_neg; constructor <;> [linarith; linarith])]
    rw [if_pos (Or.inl le_rfl)]
  · rintro ⟨hab, hbc, hcd⟩ hlt
    rw [threshold_outside]
    rw [if_neg (by push_neg; constructor <;> [linarith; linarith])]
    rw [if_neg (by push_neg; constructor <;> [linarith; linarith])]

/-- Concrete instantiation of `c1_classifier_boundaries` discharging its
conditional clauses at `t = ⟨0, 1, 2, 3⟩`. -/
theorem c1_classifier_boundaries_witness :
    threshold_outside (1 : ℚ) ⟨0, 1, 2, 3⟩ = 1 ∧
    threshold_outside (((1 : ℚ) + 2) / 2) ⟨0, 1, 2, 3⟩ = 0 := by
  have h := c1_classifier_boundaries ⟨0, 1, 2, 3⟩
  exact ⟨h.2.2.2.1 (by norm_num) (by norm_num),
    h.2.2.2.2 ⟨by norm_num, by norm_num, by norm_num⟩ (by norm_num)⟩

/-- Claim C1, counterexample to the claim as stated: the ordered
threshold set `t0 = ⟨0, 5, 5, 5⟩` has `lowWarn` strictly greater than
`lowAlarm`, yet `classify(lowWarn, t0) = 2`, not 1, and the midpoint of
`(lowWarn, highWarn)` classifies to 2, not 0. -/
theorem c1_degenerate_threshold_counterexample :
    (Thresholds.ordered ⟨0, 5, 5, 5⟩) ∧ ((0 : ℚ) < 5) ∧
    threshold_outside (5 : ℚ) ⟨0, 5, 5, 5⟩ = 2 ∧
    threshold_outside (((5 : ℚ) + 5) / 2) ⟨0, 5, 5, 5⟩ = 2 := by
  refine ⟨⟨by norm_num, by norm_num, by norm_num⟩, by norm_num, ?_, ?_⟩ <;>
    simp [threshold_outside]

/-- Claim C3 (corrected): severity is monotone in the distance from the
`[lowWarn, highWarn]` interval for every ordered threshold set that also
satisfies `lowWarn < highAlarm` and `lowAlarm < highWarn`. -/
theorem c3_classifier_monotone (t : Thresholds) (v1 v2 : ℚ)
    (hord : t.ordered)
    (hla : t.lowWarn < t.highAlarm) (hah : t.lowAlarm < t.highWarn)
    (hside : (v2 ≤ v1 ∧ v1 ≤ t.lowWarn) ∨ (v1 ≤ v2 ∧ t.highWarn ≤ v1)) :
    threshold_outside v1 t ≤ threshold_outside v2 t := by
  obtain ⟨hab, hbc, hcd⟩ := hord
  rw [threshold_outside, threshold_outside]
  rcases hside with ⟨h21, h1b⟩ | ⟨h12, hc1⟩ <;>
    split_ifs with ha hb hc hd <;>
      first
        | omega
        | (exfalso; push_neg at *
           rcases ha with ha | ha <;> rcases hb with hb | hb <;> linarith)
        | (exfalso; push_neg at *
           first
             | (rcases ha with ha | ha <;> linarith)
             | (rcases hc with hc | hc <;> linarith)
             | linarith)

/-- Concrete instantiation of `c3_classifier_monotone` at
`t = ⟨0, 1, 2, 3⟩`, `v1 = 1`, `v2 = 0`. -/
theorem c3_classifier_monotone_witness :
    threshold_outside (1 : ℚ) ⟨0, 1, 2, 3⟩ ≤ threshold_outside (0 : ℚ) ⟨0, 1, 2, 3⟩ :=
  c3_classifier_monotone ⟨0, 1, 2, 3⟩ 1 0
    ⟨by norm_num, by norm_num, by norm_num⟩ (by norm_num) (by norm_num)
    (Or.inl ⟨by norm_num, by norm_num⟩)

/-- Claim C3, counterexample to the claim as stated: with the ordered
threshold set `⟨0, 5, 5, 5⟩`, taking `v1 = 5` and `v2 = 3` satisfies
`v2 ≤ v1 ≤ lowWarn`, yet severity drops from 2 to 1; symmetrically with
`⟨5, 5, 5, 9⟩`, `v1 = 5`, `v2 = 7` on the high side. -/
theorem c3_monotone_counterexample :
    (Thresholds.ordered ⟨0, 5, 5, 5⟩ ∧ (3 : ℚ) ≤ 5 ∧ (5 : ℚ) ≤ 5 ∧
      threshold_outside (5 : ℚ) ⟨0, 5, 5, 5⟩ = 2 ∧
      threshold_outside (3 : ℚ) ⟨0, 5, 5, 5⟩ = 1) ∧
    (Thresholds.ordered ⟨5, 5, 5, 9⟩ ∧ (5 : ℚ) ≤ 7 ∧ (5 : ℚ) ≤ 5 ∧
      threshold_outside (5 : ℚ) ⟨5, 5, 5, 9⟩ = 2 ∧
      threshold_outside (7 : ℚ) ⟨5, 5, 5, 9⟩ = 1) := by
  constructor <;>
    refine ⟨⟨by norm_num, by norm_num, by norm_num⟩, by norm_num, by norm_num, ?_, ?_⟩ <;>
      simp [threshold_outside] <;> norm_num

/-! ## Collector executor cycle (`collectors/__init__.py`, `CollectorExecutor.interval_executor`) -/

/-- Python logging severities used by the code base (`log.debug`,
`log.info`, `log.error`, `log.critical`). -/
inductive Severity where
  | debug
  | info
  | warning
  | error
  | critical
deriving DecidableEq

/-- One emitted log record: a severity and the formatted message. -/
structure LogEntry where
  sev : Severity
  msg : String
deriving DecidableEq

/-- The outcome of awaiting the wrapped collector coroutine: the
coroutine either returns its `Optional[List[Metric]]` result or raises
an exception whose text is captured by `str(exc)`. -/
inductive CollectOutcome (M : Type) where
  | ok (metrics : Option (List M))
  | exc (errmsg : String)

/-- The observable effects of one pass of the `wrapped` coroutine built
by `interval_executor`: the log records emitted, the metric batch handed
to `exporter.export_metrics` as a detached task (if any), and whether a
task for the next cycle was created after the interval sleep. -/
structure CycleResult (M : Type) where
  logs : List LogEntry
  exported : Option (List M)
  nextScheduled : Bool
deriving DecidableEq

/-- Embedding of one pass of `CollectorExecutor.interval_executor`'s
`wrapped` coroutine: `await coro(...)` inside `try`; on exception log
`critical` and export nothing; on a truthy (non-`None`, non-empty)
result create an export task; in every case log the waiting message,
sleep, and schedule the next cycle. -/
def interval_executor_cycle {M : Type} (deviceName : String) (interval : ℕ)
    (outcome : CollectOutcome M) : CycleResult M :=
  let waiting : LogEntry :=
    ⟨.debug, deviceName ++ ": Waiting " ++ toString interval ++ "s before next collection"⟩
  match outcome with
  | .exc errmsg =>
      { logs := [⟨.critical, deviceName ++ ": collector execution failed: " ++ errmsg⟩, waiting],
        exported := none,
        nextScheduled := true }
  | .ok none =>
      { logs := [waiting], exported := none, nextScheduled := true }
  | .ok (some ms) =>
      { logs := [waiting],
        exported := if ms.isEmpty then none else some ms,
        nextScheduled := true }

/-- Claim C2 (corrected): an export task is created iff the collector
returned without exception and with a non-empty metric list; on an
exception the failure is caught, logged (at critical, not error,
severity) with the device identity, no export happens, and the next
cycle is still scheduled; the next cycle is scheduled in every case. -/
theorem c2_interval_executor_cycle {M : Type} (deviceName : String)
    (interval : ℕ) (outcome : CollectOutcome M) :
    ((interval_executor_cycle deviceName interval outcome).exported ≠ none ↔
      ∃ ms : List M, outcome = .ok (some ms) ∧ ms ≠ []) ∧
    (interval_executor_cycle deviceName interval outcome).nextScheduled = true ∧
    (∀ e : String, outcome = .exc e →
      (interval_executor_cycle deviceName interval outcome).exported = none ∧
      LogEntry.mk .critical (deviceName ++ ": collector execution failed: " ++ e) ∈
        (interval_executor_cycle deviceName interval outcome).logs) := by
  refine ⟨?_, ?_, ?_⟩
  · constructor
    · intro h
      match outcome with
      | .exc e => simp [interval_executor_cycle] at h
      | .ok none => simp [interval_executor_cycle] at h
      | .ok (some ms) =>
          refine ⟨ms, rfl, ?_⟩
          intro hnil
          simp [interval_executor_cycle, hnil] at h
    · rintro ⟨ms, rfl, hne⟩
      simp [interval_executor_cycle, List.isEmpty_iff, hne]
  · match outcome with
    | .exc e => rfl
    | .ok none => rfl
    | .ok (some ms) => rfl
  · rintro e rfl
    exact ⟨rfl, List.mem_cons_self _ _⟩

/-- Concrete instantiation of `c2_interval_executor_cycle`: a collector
exception on device `veos1` yields no export, a critical log entry
naming the device, and a scheduled next cycle. -/
theorem c2_interval_executor_cycle_witness :
    (interval_executor_cycle (M := ℕ) "veos1" 30 (.exc "boom")).exported = none ∧
    LogEntry.mk .critical "veos1: collector execution failed: boom" ∈
      (interval_executor_cycle (M := ℕ) "veos1" 30 (.exc "boom")).logs ∧
    (interval_executor_cycle (M := ℕ) "veos1" 30 (.exc "boom")).nextScheduled = true := by
  have h := c2_interval_executor_cycle (M := ℕ) "veos1" 30 (.exc "boom")
  exact ⟨(h.2.2 "boom" rfl).1, (h.2.2 "boom" rfl).2, h.2.1⟩

/-- Claim C2, counterexample to the claim as stated: on a collector
exception the `wrapped` coroutine logs via `log.critical`, so the cycle
emits zero log records of `error` severity and one of `critical`
severity. -/
theorem c2_no_error_severity_counterexample :
    ((interval_executor_cycle (M := ℕ) "veos1" 30 (.exc "boom")).logs.countP
      (fun e => decide (e.sev = Severity.error)) = 0) ∧
    ((interval_executor_cycle (M := ℕ) "veos1" 30 (.exc "boom")).logs.countP
      (fun e => decide (e.sev = Severity.critical)) = 1) := by
  constructor <;> rfl

/-! ## InfluxDB exporter (`exporters/influxdb.py`) -/

/-- Embedding of `httpx.Response.is_error`: true exactly for status
codes in `[400, 600)`. -/
def http_is_error (status : ℕ) : Bool :=
  decide (400 ≤ status ∧ status < 600)

/-- The observable result of one body execution of the inner
`post_metrics` coroutine for a response with the given status code: the
log records it emits and whether it raises (`RuntimeError`). -/
structure AttemptResult where
  logs : List LogEntry
  raised : Bool
deriving DecidableEq

/-- Log message of the 4xx branch of `post_metrics`. -/
def influx_bad_request_msg : String := "InfluxDB bad request, skipping"

/-- Log message of the 5xx branch of `post_metrics`. -/
def influx_unavailable_msg : String := "InfluxDB unavailable"

/-- Embedding of the body of `InfluxDBExporter.export_metrics.post_metrics`
for one POST whose response has the given status: log the status at
debug; return if `is_error` is false; for 4xx log the bad-request error
and fall through without raising; for 5xx log the unavailable error and
raise `RuntimeError`. -/
def post_metrics_attempt (deviceName : String) (status : ℕ) : AttemptResult :=
  if http_is_error status = false then
    ⟨[⟨.debug, deviceName ++ ": InflusDB POST status " ++ toString status⟩], false⟩
  else if 500 ≤ status ∧ status < 600 then
    ⟨⟨.debug, deviceName ++ ": InflusDB POST status " ++ toString status⟩ ::
      (if 400 ≤ status ∧ status < 500 then [⟨.error, influx_bad_request_msg⟩] else []) ++
      [⟨.error, influx_unavailable_msg⟩], true⟩
  else
    ⟨⟨.debug, deviceName ++ ": InflusDB POST status " ++ toString status⟩ ::
      (if 400 ≤ status ∧ status < 500 then [⟨.error, influx_bad_request_msg⟩] else []), false⟩

/-- Embedding of the `tenacity.retry(wait=wait_exponential(...))` loop
around `post_metrics`: attempts run against the successive response
statuses of the backend until one attempt does not raise.  The result is
the number of attempts consumed and whether the call completed within
the listed responses (`false` means every listed response made the
attempt raise, so the unbounded retry loop is still going). -/
def retry_post (deviceName : String) : List ℕ → ℕ × Bool
  | [] => (0, false)
  | s :: rest =>
      if (post_metrics_attempt deviceName s).raised = true then
        ((retry_post deviceName rest).1 + 1, (retry_post deviceName rest).2)
      else (1, true)

/-- An attempt raises exactly for a 5xx response. -/
theorem post_metrics_attempt_raised_iff (deviceName : String) (s : ℕ) :
    (post_metrics_attempt deviceName s).raised = true ↔ 500 ≤ s ∧ s < 600 := by
  rw [post_metrics_attempt]
  by_cases h1 : http_is_error s = false
  · rw [if_pos h1]
    have hn : ¬(400 ≤ s ∧ s < 600) := by simpa [http_is_error] using h1
    exact iff_of_false (by simp) (by omega)
  · rw [if_neg h1]
    by_cases h2 : 500 ≤ s ∧ s < 600
    · rw [if_pos h2]
      exact iff_of_true rfl h2
    · rw [if_neg h2]
      exact iff_of_false (by simp) h2

/-- Claim C4 (confirmed): a 4xx response completes `export_metrics`
after exactly one attempt with the bad-request error logged and nothing
raised; a 5xx response raises and logs the unavailable error; any
completed retry run consists of raising 5xx attempts followed by one
final non-5xx attempt; and a backend producing any non-5xx response
lets the call complete. -/
theorem c4_influxdb_status_handling (deviceName : String) :
    (∀ s rest, 400 ≤ s → s < 500 →
      retry_post deviceName (s :: rest) = (1, true) ∧
      (post_metrics_attempt deviceName s).raised = false ∧
      LogEntry.mk .error influx_bad_request_msg ∈ (post_metrics_attempt deviceName s).logs) ∧
    (∀ s, 500 ≤ s → s < 600 →
      (post_metrics_attempt deviceName s).raised = true ∧
      LogEntry.mk .error influx_unavailable_msg ∈ (post_metrics_attempt deviceName s).logs) ∧
    (∀ statuses n, retry_post deviceName statuses = (n, true) →
      1 ≤ n ∧ (∃ last, statuses.get? (n - 1) = some last ∧ ¬(500 ≤ last ∧ last < 600)) ∧
      ∀ i, i < n - 1 → ∀ x, statuses.get? i = some x → 500 ≤ x ∧ x < 600) ∧
    (∀ statuses, (∃ s ∈ statuses, ¬(500 ≤ s ∧ s < 600)) →
      (retry_post deviceName statuses).2 = true) := by
  refine ⟨?_, ?_, ?_, ?_⟩
  · intro s rest h4 h5
    have hnot : (post_metrics_attempt deviceName s).raised = false := by
      rw [Bool.eq_false_iff, Ne, post_metrics_attempt_raised_iff]; omega
    refine ⟨by rw [retry_post, hnot]; simp, hnot, ?_⟩
    rw [post_metrics_attempt]
    have h1 : ¬(http_is_error s = false) := by
      simp only [http_is_error, decide_eq_false_iff_not, not_not]; omega
    have h2 : ¬(500 ≤ s ∧ s < 600) := by omega
    rw [if_neg h1, if_neg h2, if_pos (⟨h4, h5⟩ : 400 ≤ s ∧ s < 500)]
    simp
  · intro s h5 h6
    refine ⟨(post_metrics_attempt_raised_iff deviceName s).mpr ⟨h5, h6⟩, ?_⟩
    rw [post_metrics_attempt]
    have h1 : ¬(http_is_error s = false) := by
      simp only [http_is_error, decide_eq_false_iff_not, not_not]; omega
    rw [if_neg h1, if_pos (⟨h5, h6⟩ : 500 ≤ s ∧ s < 600)]
    simp
  · intro statuses
    induction statuses with
    | nil =>
        intro n h
        rw [retry_post] at h
        simp at h
    | cons s rest ih =>
        intro n h
        rw [retry_post] at h
        by_cases hr : (post_metrics_attempt deviceName s).raised = true
        · rw [if_pos hr] at h
          have hn : (retry_post deviceName rest).1 + 1 = n := congrArg Prod.fst h
          have hd : (retry_post deviceName rest).2 = true := congrArg Prod.snd h
          have hrp : retry_post deviceName rest = ((retry_post deviceName rest).1, true) := by
            rw [← hd]
          obtain ⟨h1, ⟨last, hlast, hl5⟩, hpre⟩ := ih (retry_post deviceName rest).1 hrp
          refine ⟨by omega, ⟨last, ?_, hl5⟩, ?_⟩
          · have heq : n - 1 = ((retry_post deviceName rest).1 - 1) + 1 := by omega
            rw [heq, List.get?_cons_succ]
            exact hlast
          · intro i hi x hx
            match i with
            | 0 =>
                rw [List.get?_cons_zero] at hx
                cases hx
                exact (post_metrics_attempt_raised_iff deviceName s).mp hr
            | (j + 1) =>
                rw [List.get?_cons_succ] at hx
                exact hpre j (by omega) x hx
        · rw [if_neg hr] at h
          have hn : (1 : ℕ) = n := congrArg Prod.fst h
          cases hn
          refine ⟨le_rfl, ⟨s, rfl, ?_⟩, ?_⟩
          · rw [← post_metrics_attempt_raised_iff deviceName s]
            simpa using hr
          · intro i hi
            exact absurd hi (by omega)
  · intro statuses
    induction statuses with
    | nil =>
        rintro ⟨s, hs, _⟩
        simp at hs
    | cons s rest ih =>
        rintro ⟨x, hx, hx5⟩
        rw [retry_post]
        by_cases hr : (post_metrics_attempt deviceName s).raised = true
        · rw [if_pos hr]
          rcases List.mem_cons.mp hx with rfl | hmem
          · exact absurd ((post_metrics_attempt_raised_iff deviceName x).mp hr) hx5
          · exact ih ⟨x, hmem, hx5⟩
        · rw [if_neg hr]

/-- Concrete instantiation of `c4_influxdb_status_handling`: a first
response of 400 completes in one attempt; 503 raises; the run
`[503, 503, 204]` completes. -/
theorem c4_influxdb_status_handling_witness :
    retry_post "veos1" [400, 202] = (1, true) ∧
    (post_metrics_attempt "veos1" 503).raised = true ∧
    (retry_post "veos1" [503, 503, 204]).2 = true := by
  have h := c4_influxdb_status_handling "veos1"
  exact ⟨(h.1 400 [202] (by norm_num) (by norm_num)).1,
    (h.2.1 503 (by norm_num) (by norm_num)).1,
    h.2.2.2 [503, 503, 204] ⟨204, by simp, by omega⟩⟩

/-! ## Exporter tag formatting (`exporters/influxdb.py` `make_influxdb_metric`,
`exporters/circonus.py` `make_circonus_metric`) -/

/-- First-match association-list lookup, the model of a Python
dictionary read. -/
def alookup {β : Type} : List (String × β) → String → Option β
  | [], _ => none
  | (k2, v) :: rest, k => if k2 = k then some v else alookup rest k

/-- The binding a last-occurrence-wins reader of a key-value sequence
sees: the value of the last pair carrying the key. -/
def lastBinding {β : Type} (l : List (String × β)) (k : String) : Option β :=
  alookup l.reverse k

/-- A metric as consumed by the exporters: name, value, timestamp and
per-observation tag pairs. -/
structure WireMetric where
  name : String
  value : ℚ
  tags : List (String × String)
  ts : ℕ
deriving DecidableEq

/-- Embedding of the tag sequence built by `make_influxdb_metric`:
`chain(device_tags.items(), metric.tags.items())` — the device pairs
followed by the metric pairs, with no deduplication. -/
def make_influxdb_tag_pairs (deviceTags metricTags : List (String × String)) :
    List (String × String) :=
  deviceTags ++ metricTags

/-- Embedding of `make_influxdb_metric`: the InfluxDB line-protocol
rendering of one metric with the chained tag pairs as labels. -/
def make_influxdb_metric (deviceTags : List (String × String)) (m : WireMetric) : String :=
  m.name ++ "," ++
    String.intercalate ","
      ((make_influxdb_tag_pairs deviceTags m.tags).map fun p => p.1 ++ "=" ++ p.2) ++
    " value=" ++ toString m.value ++ " " ++ toString (m.ts * 1000000)

/-- Embedding of the stream-tag sequence built by `make_circonus_metric`:
the same `chain` of device pairs then metric pairs. -/
def make_circonus_tag_pairs (deviceTags metricTags : List (String × String)) :
    List (String × String) :=
  deviceTags ++ metricTags

/-- Embedding of `make_circonus_metric`: the metric name decorated with
the chained stream tags, paired with the metric value. -/
def make_circonus_metric (deviceTags : List (String × String)) (m : WireMetric) :
    String × ℚ :=
  (m.name ++ "|ST[" ++
    String.intercalate ","
      ((make_circonus_tag_pairs deviceTags m.tags).map fun p => p.1 ++ ":" ++ p.2) ++
    "]", m.value)

/-- Modelled from the spec: the tag merge the spec describes — device
tags and metric tags merged into one mapping in which a metric-level
binding replaces a device-level binding with the same key. -/
def mergeTagsSpec (deviceTags metricTags : List (String × String)) :
    List (String × String) :=
  deviceTags.filter (fun p => (alookup metricTags p.1).isNone) ++ metricTags

/-- A key absent from an association list has no first binding. -/
theorem alookup_eq_none_iff {β : Type} (l : List (String × β)) (k : String) :
    alookup l k = none ↔ ∀ p ∈ l, p.1 ≠ k := by
  induction l with
  | nil => simp [alookup]
  | cons p rest ih =>
      rw [alookup]
      by_cases h : p.1 = k
      · rw [if_pos h]
        simp [h]
      · rw [if_neg h]
        rw [ih]
        constructor
        · intro hall q hq
          rcases List.mem_cons.mp hq with rfl | hq2
          · exact h
          · exact hall q hq2
        · intro hall q hq
          exact hall q (List.mem_cons_of_mem _ hq)

/-- Lookups distribute over append: the first list wins when it binds
the key. -/
theorem alookup_append {β : Type} (l1 l2 : List (String × β)) (k : String) :
    alookup (l1 ++ l2) k =
      (alookup l1 k).rec (alookup l2 k) (fun v => some v) := by
  induction l1 with
  | nil => simp [alookup]
  | cons p rest ih =>
      rw [List.cons_append, alookup, alookup]
      by_cases h : p.1 = k
      · rw [if_pos h, if_pos h]
      · rw [if_neg h, if_neg h]
        exact ih

/-- Claim C5 (corrected): both exporters emit the concatenation of the
device-level pairs followed by the metric-level pairs — on a key
collision both pairs are emitted, the metric-level pair after every
device-level pair, so a last-binding-wins reader sees the metric-level
value, but the device-level binding is also present on the wire. -/
theorem c5_exporter_tag_pairs (deviceTags metricTags : List (String × String)) :
    make_influxdb_tag_pairs deviceTags metricTags = deviceTags ++ metricTags ∧
    make_circonus_tag_pairs deviceTags metricTags = deviceTags ++ metricTags ∧
    (∀ p ∈ metricTags, p ∈ make_influxdb_tag_pairs deviceTags metricTags) ∧
    (∀ p ∈ deviceTags, p ∈ make_influxdb_tag_pairs deviceTags metricTags) ∧
    (∀ k, (alookup metricTags.reverse k).isSome →
      lastBinding (make_influxdb_tag_pairs deviceTags metricTags) k =
        lastBinding metricTags k) := by
  refine ⟨rfl, rfl, fun p hp => List.mem_append_right _ hp,
    fun p hp => List.mem_append_left _ hp, ?_⟩
  intro k hk
  rw [lastBinding, lastBinding, make_influxdb_tag_pairs, List.reverse_append,
    alookup_append]
  obtain ⟨v, hv⟩ := Option.isSome_iff_exists.mp hk
  rw [hv]

/-- Concrete instantiation of `c5_exporter_tag_pairs`: with a colliding
key `a`, the emitted pair sequence is `[("a","1"), ("a","2")]` and the
last binding of `a` is the metric-level value. -/
theorem c5_exporter_tag_pairs_witness :
    make_influxdb_tag_pairs [("a", "1")] [("a", "2")] = [("a", "1"), ("a", "2")] ∧
    lastBinding (make_influxdb_tag_pairs [("a", "1")] [("a", "2")]) "a" = some "2" := by
  have h := c5_exporter_tag_pairs [("a", "1")] [("a", "2")]
  refine ⟨h.1, ?_⟩
  rw [h.2.2.2.2 "a" (by rw [show alookup [("a", "2")].reverse "a" = some "2" from rfl]; rfl)]
  rfl

/-- Claim C5, counterexample to the claim as stated: with device tags
`{a: 1}` and metric tags `{a: 2}`, the emitted pair sequence is not the
metric-precedence merge — the device-level pair `("a", "1")` also
appears on the wire, in the line-protocol label text too. -/
theorem c5_tag_collision_counterexample :
    make_influxdb_tag_pairs [("a", "1")] [("a", "2")] = [("a", "1"), ("a", "2")] ∧
    mergeTagsSpec [("a", "1")] [("a", "2")] = [("a", "2")] ∧
    ("a", "1") ∈ make_influxdb_tag_pairs [("a", "1")] [("a", "2")] ∧
    make_influxdb_metric [("a", "1")]
        { name := "ifdom_temp", value := 3, tags := [("a", "2")], ts := 1 } =
      "ifdom_temp,a=1,a=2 value=3 1000000" := by
  refine ⟨rfl, by decide, by decide, ?_⟩
  rfl

/-! ## Circonus export concurrency (`exporters/circonus.py`) -/

/-- Embedding of `circonus_sem4 = asyncio.Semaphore(100)`: the declared
capacity of the process-wide export limiter. -/
def circonus_sem4_capacity : ℕ := 100

/-- The suspension-point actions one `export_metrics` call in
`exporters/circonus.py` can perform. -/
inductive ExportAction where
  | logDebug
  | semAcquire
  | semRelease
  | httpPut
  | logError
deriving DecidableEq

/-- Embedding of the action trace of one `circonus.export_metrics` call
whose retry loop performs the given number of PUT attempts (each
logging its status at debug) and which ends in the timeout handler or
not: the entry debug log, then the attempts, then the optional timeout
error log.  No semaphore operation occurs anywhere in the function
body. -/
def circonus_export_actions (attempts : ℕ) (timedOut : Bool) : List ExportAction :=
  ExportAction.logDebug ::
    ((List.replicate attempts ExportAction.httpPut).flatMap
      fun a => [a, ExportAction.logDebug]) ++
    (if timedOut then [ExportAction.logError] else [])

/-- Claim C9 (code bug): the counting limiter `circonus_sem4` is
declared with capacity 100 but `export_metrics` never acquires (or
releases) it, so nothing bounds the number of simultaneously in-flight
export calls. -/
theorem c9_circonus_limiter_never_acquired :
    (∀ attempts timedOut,
      ExportAction.semAcquire ∉ circonus_export_actions attempts timedOut ∧
      ExportAction.semRelease ∉ circonus_export_actions attempts timedOut) ∧
    circonus_sem4_capacity = 100 := by
  refine ⟨fun attempts timedOut => ⟨?_, ?_⟩, rfl⟩ <;>
  · intro hmem
    rw [circonus_export_actions] at hmem
    rcases List.mem_cons.mp hmem with h | h
    · cases h
    rcases List.mem_append.mp h with h | h
    · obtain ⟨a, ha, hmem2⟩ := List.mem_flatMap.mp h
      have : a = ExportAction.httpPut := List.eq_of_mem_replicate ha
      subst this
      rcases List.mem_cons.mp hmem2 with h2 | h2
      · cases h2
      · rcases List.mem_cons.mp h2 with h3 | h3
        · cases h3
        · cases h3
    · by_cases ht : timedOut = true
      · rw [ht, if_pos rfl] at h
        rcases List.mem_cons.mp h with h2 | h2
        · cases h2
        · cases h2
      · rw [Bool.eq_false_iff.mpr ht] at h
        simp at h

/-- Concrete instantiation of `c9_circonus_limiter_never_acquired`: a
single-attempt, non-timed-out export call performs zero semaphore
acquisitions. -/
theorem c9_circonus_limiter_never_acquired_witness :
    (circonus_export_actions 1 false).count ExportAction.semAcquire = 0 :=
  List.count_eq_zero.mpr (c9_circonus_limiter_never_acquired.1 1 false).1

/-! ## IF DOM collectors (`collectors/ifdom/eapi.py`, `collectors/ifdom/nxapi.py`) -/

/-- A tag value as stored by the collectors: either the raw string (the
`if_name` tag) or a base64-encoded string (`if_desc`, `media`). -/
inductive TagVal where
  | raw (s : String)
  | b64 (s : String)
deriving DecidableEq

/-- Modelled from the spec: `b64encodestr` (imported by both collectors
but defined outside the files under `src/`) base64-encodes a tag value
so it is safe to embed in wire text; the encoding's internals do not
matter to any claim, so it is modelled as the abstract injective
constructor `TagVal.b64`. -/
def b64encodestr (s : String) : TagVal := .b64 s

/-- A Metric as produced by the IF DOM collectors (`nwkatk_netmon.Metric`
subclasses from `collectors/ifdom/__init__.py`): name, value, timestamp
in milliseconds, and the interface tag mapping. -/
structure MetricC where
  name : String
  value : ℚ
  ts : ℕ
  tags : List (String × TagVal)
deriving DecidableEq

/-- The per-interface transceiver record of the EAPI
`show interfaces transceiver detail` output used by `_make_if_metrics`:
measurement values plus the per-measurement threshold sets of the
`details` dictionary. -/
structure EapiDomData where
  mediaType : String
  txPower : ℚ
  rxPower : ℚ
  temperature : ℚ
  voltage : ℚ
  rxPowerTh : Thresholds
  txPowerTh : Thresholds
  temperatureTh : Thresholds
  voltageTh : Thresholds
deriving DecidableEq

/-- One entry of the EAPI `show interfaces description` output. -/
structure EapiDescEntry where
  interfaceStatus : String
  description : String
deriving DecidableEq

/-- The common tag mapping `c_tags` built inside `_make_if_metrics`. -/
def eapi_if_tags (ifName : String) (d : EapiDomData) (ifDesc : String) :
    List (String × TagVal) :=
  [("if_name", TagVal.raw ifName),
   ("if_desc", b64encodestr ifDesc),
   ("media", b64encodestr d.mediaType)]

/-- Embedding of `_make_if_metrics` from `collectors/ifdom/eapi.py`:
given the timestamp read by its own `timestamp_now()` call, yields the
four value metrics and the four threshold-status metrics for one
interface, all carrying that timestamp and the common tags. -/
def make_if_metrics (ts : ℕ) (ifName : String) (d : EapiDomData) (ifDesc : String) :
    List MetricC :=
  [⟨"ifdom_txpower", d.txPower, ts, eapi_if_tags ifName d ifDesc⟩,
   ⟨"ifdom_rxpower", d.rxPower, ts, eapi_if_tags ifName d ifDesc⟩,
   ⟨"ifdom_temp", d.temperature, ts, eapi_if_tags ifName d ifDesc⟩,
   ⟨"ifdom_voltage", d.voltage, ts, eapi_if_tags ifName d ifDesc⟩,
   ⟨"ifdom_rxpower_status", (threshold_outside d.rxPower d.rxPowerTh : ℚ), ts,
     eapi_if_tags ifName d ifDesc⟩,
   ⟨"ifdom_txpower_status", (threshold_outside d.txPower d.txPowerTh : ℚ), ts,
     eapi_if_tags ifName d ifDesc⟩,
   ⟨"ifdom_temp_status", (threshold_outside d.temperature d.temperatureTh : ℚ), ts,
     eapi_if_tags ifName d ifDesc⟩,
   ⟨"ifdom_voltag_status", (threshold_outside d.voltage d.voltageTh : ℚ), ts,
     eapi_if_tags ifName d ifDesc⟩]

/-- Embedding of the list comprehension of `get_dom_metrics` in
`collectors/ifdom/eapi.py` together with its `__ok_process_if` filter.
The wall clock is explicit: `clock j` is the value `timestamp_now()`
returns at its `j`-th call of this cycle, and each surviving interface
triggers one such call inside `_make_if_metrics`.  An interface is
processed only when its DOM record is truthy, a description entry
exists (otherwise it is an unused transceiver lane) and the interface
is not administratively down. -/
def eapi_collect_aux (clock : ℕ → ℕ) (k : ℕ)
    (ifs_dom : List (String × Option EapiDomData))
    (ifs_desc : List (String × EapiDescEntry)) : List MetricC :=
  match ifs_dom with
  | [] => []
  | (_, none) :: rest => eapi_collect_aux clock k rest ifs_desc
  | (ifName, some d) :: rest =>
      match alookup ifs_desc ifName with
      | none => eapi_collect_aux clock k rest ifs_desc
      | some dentry =>
          if dentry.interfaceStatus = "adminDown" then
            eapi_collect_aux clock k rest ifs_desc
          else
            make_if_metrics (clock k) ifName d dentry.description ++
              eapi_collect_aux clock (k + 1) rest ifs_desc

/-- The full EAPI collection cycle starting at the cycle's first
`timestamp_now()` call. -/
def eapi_get_dom_metrics (clock : ℕ → ℕ)
    (ifs_dom : List (String × Option EapiDomData))
    (ifs_desc : List (String × EapiDescEntry)) : List MetricC :=
  eapi_collect_aux clock 0 ifs_dom ifs_desc

/-- One `ROW_interface` record of the NX-API
`show interface transceiver details` output (fields read by
`get_dom_metrics` in `collectors/ifdom/nxapi.py`); optional fields model
absent or empty elements, which Python's truthiness checks skip. -/
structure NxDomRow where
  ifName : String
  sfp : String
  temperature : Option ℚ
  mediaType : Option String
  partnum : String
  voltage : Option ℚ
  tx_pwr : Option ℚ
  rx_pwr : Option ℚ
  rx_pwr_flag : Option String
  tx_pwr_flag : Option String
  volt_flag : Option String
  temp_flag : Option String
deriving DecidableEq

/-- One `ROW_interface` record of the NX-API `show interface status`
output. -/
structure NxStatusRow where
  ifName : String
  state : String
  nameText : Option String
deriving DecidableEq

/-- Embedding of the xpath
`TABLE_interface/ROW_interface[interface=<n> and state!="disabled"]`
applied to the status table: the first row for the interface whose
state is not `disabled`. -/
def nx_find_status : List NxStatusRow → String → Option NxStatusRow
  | [], _ => none
  | s :: rest, n =>
      if s.ifName = n ∧ s.state ≠ "disabled" then some s
      else nx_find_status rest n

/-- Python's `str.strip()` on a character list: drop whitespace from
both ends. -/
def stripChars (l : List Char) : List Char :=
  ((l.dropWhile Char.isWhitespace).reverse.dropWhile Char.isWhitespace).reverse

/-- Python's `str.strip()`: the string with surrounding whitespace
removed. -/
def pystrip (s : String) : String :=
  ⟨stripChars s.data⟩

/-- Embedding of `@lru_cache def _from_flag_to_status` from
`collectors/ifdom/nxapi.py`: strip the flag text and map `++`/`--` to
alarm, `+`/`-` to warning, anything else to ok. -/
def from_flag_to_status (flag : String) : ℕ :=
  if pystrip flag = "++" ∨ pystrip flag = "--" then 2
  else if pystrip flag = "+" ∨ pystrip flag = "-" then 1
  else 0

/-- A Python truthiness-guarded metric emission: one metric when the
field is present, none otherwise. -/
def optMetric {α : Type} (o : Option α) (f : α → MetricC) : List MetricC :=
  match o with
  | none => []
  | some v => [f v]

/-- The shared `if_tags` mapping of one NX-API interface: description
from the status row's `name` text (empty when unset, stripped), media
from `type or partnum`, stripped. -/
def nx_if_tags (r : NxDomRow) (srow : NxStatusRow) : List (String × TagVal) :=
  [("if_name", TagVal.raw r.ifName),
   ("if_desc", b64encodestr (pystrip (srow.nameText.getD ""))),
   ("media", b64encodestr (pystrip (r.mediaType.getD r.partnum)))]

/-- The metrics generated for one NX-API interface: the
`_METRIC_VALUE_MAP` fields in order (`voltage`, `tx_pwr`, `rx_pwr`,
`temperature`), then the `_METRIC_STATUS_MAP` fields in order
(`rx_pwr_flag`, `tx_pwr_flag`, `volt_flag`, `temp_flag`), each emitted
only when present and all carrying the cycle timestamp. -/
def nx_row_metrics (timestamp : ℕ) (r : NxDomRow) (srow : NxStatusRow) : List MetricC :=
  optMetric r.voltage (fun v => ⟨"ifdom_voltage", v, timestamp, nx_if_tags r srow⟩) ++
  optMetric r.tx_pwr (fun v => ⟨"ifdom_txpower", v, timestamp, nx_if_tags r srow⟩) ++
  optMetric r.rx_pwr (fun v => ⟨"ifdom_rxpower", v, timestamp, nx_if_tags r srow⟩) ++
  optMetric r.temperature (fun v => ⟨"ifdom_temp", v, timestamp, nx_if_tags r srow⟩) ++
  optMetric r.rx_pwr_flag
    (fun f => ⟨"ifdom_rxpower_status", (from_flag_to_status f : ℚ), timestamp,
      nx_if_tags r srow⟩) ++
  optMetric r.tx_pwr_flag
    (fun f => ⟨"ifdom_txpower_status", (from_flag_to_status f : ℚ), timestamp,
      nx_if_tags r srow⟩) ++
  optMetric r.volt_flag
    (fun f => ⟨"ifdom_voltag_status", (from_flag_to_status f : ℚ), timestamp,
      nx_if_tags r srow⟩) ++
  optMetric r.temp_flag
    (fun f => ⟨"ifdom_temp_status", (from_flag_to_status f : ℚ), timestamp,
      nx_if_tags r srow⟩)

/-- Embedding of the `generate_metrics` inner generator of the NX-API
`get_dom_metrics`: interfaces without a non-disabled status row are
skipped. -/
def nx_generate (timestamp : ℕ) (statusRows : List NxStatusRow) :
    List NxDomRow → List MetricC
  | [] => []
  | r :: rest =>
      (match nx_find_status statusRows r.ifName with
       | none => []
       | some srow => nx_row_metrics timestamp r srow) ++
      nx_generate timestamp statusRows rest

/-- The full NX-API collection cycle: one `timestamp_now()` read at the
start, the `sfp="present" and temperature` xpath prefilter, then the
generator. -/
def nxapi_get_dom_metrics (clock : ℕ → ℕ) (domRows : List NxDomRow)
    (statusRows : List NxStatusRow) : List MetricC :=
  nx_generate (clock 0) statusRows
    (domRows.filter fun r => decide (r.sfp = "present") && r.temperature.isSome)

/-- Every metric yielded by `_make_if_metrics` carries the timestamp of
that invocation and the common interface tags. -/
theorem make_if_metrics_fields (ts : ℕ) (ifName : String) (d : EapiDomData)
    (ifDesc : String) (m : MetricC) (h : m ∈ make_if_metrics ts ifName d ifDesc) :
    m.ts = ts ∧ m.tags = eapi_if_tags ifName d ifDesc := by
  simp only [make_if_metrics, List.mem_cons, List.not_mem_nil, or_false] at h
  rcases h with rfl | rfl | rfl | rfl | rfl | rfl | rfl | rfl <;> exact ⟨rfl, rfl⟩

/-- Every metric collected by the EAPI cycle comes from one surviving
interface: its DOM record is present, a description entry exists and is
not `adminDown`, and the metric was produced by `_make_if_metrics` with
the timestamp of some `timestamp_now()` call of the cycle. -/
theorem eapi_collect_aux_mem (clock : ℕ → ℕ) (k : ℕ)
    (dom : List (String × Option EapiDomData)) (desc : List (String × EapiDescEntry))
    (m : MetricC) (h : m ∈ eapi_collect_aux clock k dom desc) :
    ∃ j ifName d dentry, alookup desc ifName = some dentry ∧
      dentry.interfaceStatus ≠ "adminDown" ∧
      m ∈ make_if_metrics (clock j) ifName d dentry.description := by
  induction dom generalizing k with
  | nil => simp [eapi_collect_aux] at h
  | cons p rest ih =>
      obtain ⟨ifName, od⟩ := p
      match od with
      | none =>
          rw [eapi_collect_aux] at h
          exact ih k h
      | some d =>
          rw [eapi_collect_aux] at h
          split at h
          · exact ih k h
          · rename_i dentry halk
            by_cases hst : dentry.interfaceStatus = "adminDown"
            · rw [if_pos hst] at h
              exact ih k h
            · rw [if_neg hst] at h
              rcases List.mem_append.mp h with hl | hr
              · exact ⟨k, ifName, d, dentry, halk, hst, hl⟩
              · exact ih (k + 1) hr

/-- `optMetric` only emits the image of a present field. -/
theorem optMetric_mem {α : Type} (o : Option α) (f : α → MetricC) (m : MetricC)
    (h : m ∈ optMetric o f) : ∃ v, o = some v ∧ m = f v := by
  match o with
  | none => simp [optMetric] at h
  | some v =>
      simp only [optMetric, List.mem_cons, List.not_mem_nil, or_false] at h
      exact ⟨v, rfl, h⟩

/-- Every metric generated for one NX-API interface carries the cycle
timestamp and the shared interface tags. -/
theorem nx_row_metrics_fields (timestamp : ℕ) (r : NxDomRow) (srow : NxStatusRow)
    (m : MetricC) (h : m ∈ nx_row_metrics timestamp r srow) :
    m.ts = timestamp ∧ m.tags = nx_if_tags r srow := by
  simp only [nx_row_metrics, List.mem_append] at h
  rcases h with ((((((h | h) | h) | h) | h) | h) | h) | h <;>
    · obtain ⟨v, hv, rfl⟩ := optMetric_mem _ _ _ h
      exact ⟨rfl, rfl⟩

/-- What a successful status-table xpath match means: the row is in the
table, names the interface, and is not disabled. -/
theorem nx_find_status_spec (rows : List NxStatusRow) (n : String)
    (s : NxStatusRow) (h : nx_find_status rows n = some s) :
    s ∈ rows ∧ s.ifName = n ∧ s.state ≠ "disabled" := by
  induction rows with
  | nil => simp [nx_find_status] at h
  | cons r rest ih =>
      rw [nx_find_status] at h
      by_cases hc : r.ifName = n ∧ r.state ≠ "disabled"
      · rw [if_pos hc] at h
        cases h
        exact ⟨List.mem_cons_self .., hc⟩
      · rw [if_neg hc] at h
        obtain ⟨hmem, hrest⟩ := ih h
        exact ⟨List.mem_cons_of_mem _ hmem, hrest⟩

/-- Every metric produced by the NX-API generator comes from a DOM row
whose interface has a non-disabled status row. -/
theorem nx_generate_mem (timestamp : ℕ) (statusRows : List NxStatusRow)
    (doms : List NxDomRow) (m : MetricC) (h : m ∈ nx_generate timestamp statusRows doms) :
    ∃ r srow, r ∈ doms ∧ nx_find_status statusRows r.ifName = some srow ∧
      m ∈ nx_row_metrics timestamp r srow := by
  induction doms with
  | nil => simp [nx_generate] at h
  | cons r rest ih =>
      rw [nx_generate] at h
      rcases List.mem_append.mp h with hl | hr
      · split at hl
        · simp at hl
        · rename_i srow hfind
          exact ⟨r, srow, List.mem_cons_self .., hfind, hl⟩
      · obtain ⟨r2, srow, hmem, hfind, hms⟩ := ih hr
        exact ⟨r2, srow, List.mem_cons_of_mem _ hmem, hfind, hms⟩

/-- Claim C8 (confirmed): in both vendor adapters every collected metric
belongs to an interface that has a matching description/status entry
(so unused transceiver lanes are excluded) and that is not
administratively disabled. -/
theorem c8_collect_filters :
    (∀ (clock : ℕ → ℕ) dom desc m, m ∈ eapi_get_dom_metrics clock dom desc →
      ∃ ifName dentry, ("if_name", TagVal.raw ifName) ∈ m.tags ∧
        alookup desc ifName = some dentry ∧
        dentry.interfaceStatus ≠ "adminDown") ∧
    (∀ (clock : ℕ → ℕ) domRows statusRows m,
      m ∈ nxapi_get_dom_metrics clock domRows statusRows →
      ∃ srow, ("if_name", TagVal.raw srow.ifName) ∈ m.tags ∧
        srow ∈ statusRows ∧ srow.state ≠ "disabled") := by
  constructor
  · intro clock dom desc m h
    obtain ⟨j, ifName, d, dentry, halk, hst, hmem⟩ :=
      eapi_collect_aux_mem clock 0 dom desc m h
    obtain ⟨_, htags⟩ := make_if_metrics_fields _ _ _ _ _ hmem
    refine ⟨ifName, dentry, ?_, halk, hst⟩
    rw [htags, eapi_if_tags]
    exact List.mem_cons_self ..
  · intro clock domRows statusRows m h
    obtain ⟨r, srow, hmem, hfind, hms⟩ :=
      nx_generate_mem _ _ _ m h
    obtain ⟨_, htags⟩ := nx_row_metrics_fields _ _ _ _ hms
    obtain ⟨hsmem, hsname, hsstate⟩ := nx_find_status_spec _ _ _ hfind
    refine ⟨srow, ?_, hsmem, hsstate⟩
    rw [htags, nx_if_tags, hsname]
    exact List.mem_cons_self ..

/-- Concrete instantiation of `c8_collect_filters`: a one-interface
EAPI cycle whose only interface is `adminDown` yields no metrics,
derived by applying the filtering theorem to the lone description
entry. -/
theorem c8_collect_filters_witness :
    eapi_get_dom_metrics (fun k => k)
      [("Ethernet1", some ⟨"10GBASE-SR", 1, 1, 1, 1, ⟨0, 1, 2, 3⟩, ⟨0, 1, 2, 3⟩,
        ⟨0, 1, 2, 3⟩, ⟨0, 1, 2, 3⟩⟩)]
      [("Ethernet1", ⟨"adminDown", "dark"⟩)] = [] := by
  rw [List.eq_nil_iff_forall_not_mem]
  intro m hm
  obtain ⟨ifName, dentry, htag, halk, hst⟩ :=
    c8_collect_filters.1 (fun k => k) _ _ m hm
  rw [alookup] at halk
  by_cases hn : "Ethernet1" = ifName
  · rw [if_pos hn] at halk
    cases halk
    exact hst rfl
  · rw [if_neg hn] at halk
    cases halk

/-- Claim C6 (corrected): all metrics of one `_make_if_metrics`
invocation (one EAPI interface) share one timestamp; the NX-API cycle
assigns one timestamp at its start that every metric of the cycle
carries; and the EAPI cycle satisfies cycle-wide timestamp equality
whenever the clock does not advance between its per-interface
`timestamp_now()` calls. -/
theorem c6_cycle_timestamps :
    (∀ ts ifName d ifDesc m1 m2, m1 ∈ make_if_metrics ts ifName d ifDesc →
      m2 ∈ make_if_metrics ts ifName d ifDesc → m1.ts = m2.ts) ∧
    (∀ (clock : ℕ → ℕ) domRows statusRows m,
      m ∈ nxapi_get_dom_metrics clock domRows statusRows → m.ts = clock 0) ∧
    (∀ (clock : ℕ → ℕ), (∀ i j, clock i = clock j) →
      ∀ dom desc m1 m2, m1 ∈ eapi_get_dom_metrics clock dom desc →
        m2 ∈ eapi_get_dom_metrics clock dom desc → m1.ts = m2.ts) := by
  refine ⟨?_, ?_, ?_⟩
  · intro ts ifName d ifDesc m1 m2 h1 h2
    rw [(make_if_metrics_fields _ _ _ _ _ h1).1, (make_if_metrics_fields _ _ _ _ _ h2).1]
  · intro clock domRows statusRows m h
    obtain ⟨r, srow, _, _, hms⟩ := nx_generate_mem _ _ _ m h
    exact (nx_row_metrics_fields _ _ _ _ hms).1
  · intro clock hconst dom desc m1 m2 h1 h2
    obtain ⟨j1, n1, d1, e1, _, _, hm1⟩ := eapi_collect_aux_mem clock 0 dom desc m1 h1
    obtain ⟨j2, n2, d2, e2, _, _, hm2⟩ := eapi_collect_aux_mem clock 0 dom desc m2 h2
    rw [(make_if_metrics_fields _ _ _ _ _ hm1).1, (make_if_metrics_fields _ _ _ _ _ hm2).1]
    exact hconst j1 j2

/-- The transceiver record used by the C6 scenarios. -/
def c6DomData : EapiDomData :=
  ⟨"10GBASE-SR", 1, 1, 1, 1, ⟨0, 1, 2, 3⟩, ⟨0, 1, 2, 3⟩, ⟨0, 1, 2, 3⟩, ⟨0, 1, 2, 3⟩⟩

/-- The two-interface DOM table used by the C6 scenarios. -/
def c6Dom : List (String × Option EapiDomData) :=
  [("Ethernet1", some c6DomData), ("Ethernet2", some c6DomData)]

/-- The two-interface description table used by the C6 scenarios. -/
def c6Desc : List (String × EapiDescEntry) :=
  [("Ethernet1", ⟨"connected", "u1"⟩), ("Ethernet2", ⟨"connected", "u2"⟩)]

/-- Concrete instantiation of `c6_cycle_timestamps`: the first and last
metrics of one `_make_if_metrics` interface invocation carry the same
timestamp. -/
theorem c6_cycle_timestamps_witness :
    MetricC.ts ⟨"ifdom_txpower", 1, 7, eapi_if_tags "Ethernet1" c6DomData "u1"⟩ =
      MetricC.ts ⟨"ifdom_voltag_status",
        (threshold_outside c6DomData.voltage c6DomData.voltageTh : ℚ), 7,
        eapi_if_tags "Ethernet1" c6DomData "u1"⟩ :=
  c6_cycle_timestamps.1 7 "Ethernet1" c6DomData "u1" _ _ (by decide) (by decide)

/-- Claim C6, counterexample to the claim as stated: the EAPI adapter
calls `timestamp_now()` once per interface, so when the millisecond
clock advances between the two interfaces of one cycle the returned
list carries the two different timestamps 0 and 1. -/
theorem c6_eapi_two_timestamps_counterexample :
    (eapi_get_dom_metrics (fun k => k) c6Dom c6Desc).map MetricC.ts =
      [0, 0, 0, 0, 0, 0, 0, 0, 1, 1, 1, 1, 1, 1, 1, 1] := by
  rfl

/-- Claim C10 (confirmed): the NX-API flag-to-status mapping is total:
after stripping, `++`/`--` map to 2, `+`/`-` map to 1, every other
string maps to 0, and the result is always at most 2. -/
theorem c10_from_flag_to_status_total (s : String) :
    from_flag_to_status s ≤ 2 ∧
    (from_flag_to_status s = 2 ↔ pystrip s = "++" ∨ pystrip s = "--") ∧
    (from_flag_to_status s = 1 ↔ pystrip s = "+" ∨ pystrip s = "-") ∧
    (pystrip s ≠ "++" → pystrip s ≠ "--" → pystrip s ≠ "+" → pystrip s ≠ "-" →
      from_flag_to_status s = 0) := by
  rw [from_flag_to_status]
  by_cases h1 : pystrip s = "++" ∨ pystrip s = "--"
  · rw [if_pos h1]
    have hne : ¬(pystrip s = "+" ∨ pystrip s = "-") := by
      rcases h1 with h | h <;> rw [h] <;> decide
    exact ⟨le_rfl, iff_of_true rfl h1, iff_of_false (by norm_num) hne,
      fun ha hb _ _ => by rcases h1 with h | h <;> [exact absurd h ha; exact absurd h hb]⟩
  · rw [if_neg h1]
    by_cases h2 : pystrip s = "+" ∨ pystrip s = "-"
    · rw [if_pos h2]
      exact ⟨by norm_num, iff_of_false (by norm_num) h1, iff_of_true rfl h2,
        fun _ _ hc hd => by rcases h2 with h | h <;> [exact absurd h hc; exact absurd h hd]⟩
    · rw [if_neg h2]
      exact ⟨by norm_num, iff_of_false (by norm_num) h1, iff_of_false (by norm_num) h2,
        fun _ _ _ _ => rfl⟩

/-- Concrete instantiation of `c10_from_flag_to_status_total`: the four
vendor flags (with surrounding whitespace) and two unrecognized inputs. -/
theorem c10_from_flag_to_status_total_witness :
    from_flag_to_status " ++ " = 2 ∧ from_flag_to_status "--" = 2 ∧
    from_flag_to_status " + " = 1 ∧ from_flag_to_status "-" = 1 ∧
    from_flag_to_status "" = 0 ∧ from_flag_to_status "unknown" = 0 := by
  refine ⟨((c10_from_flag_to_status_total " ++ ").2.1).mpr (Or.inl (by decide)),
    ((c10_from_flag_to_status_total "--").2.1).mpr (Or.inr (by decide)),
    ((c10_from_flag_to_status_total " + ").2.2.1).mpr (Or.inl (by decide)),
    ((c10_from_flag_to_status_total "-").2.2.1).mpr (Or.inr (by decide)),
    (c10_from_flag_to_status_total "").2.2.2 (by decide) (by decide) (by decide) (by decide),
    (c10_from_flag_to_status_total "unknown").2.2.2 (by decide) (by decide) (by decide)
      (by decide)⟩

/-! ## Device bootstrap (`script.py` `async_main_device`,
`drivers/ios_ssh.py` `Device.login`) -/

/-- The outcome of `device.prepare(...)` followed by
`await device.login(creds)`: a raised `RuntimeError`, some other raised
exception, or a normal return carrying `login`'s boolean result. -/
inductive LoginOutcome where
  | raisesRuntimeError (msg : String)
  | raisesOther (msg : String)
  | returns (ok : Bool)
deriving DecidableEq

/-- One inventory record as consumed by `async_main_device`. -/
structure InventoryRec where
  host : String
  os_name : String
deriving DecidableEq

/-- The observable result of one `async_main_device` task: the log
records it emits, the collector start tasks it creates, and whether an
uncaught exception escaped the coroutine. -/
structure MainDeviceResult where
  logs : List LogEntry
  startedCollectors : List String
  crashed : Bool
deriving DecidableEq

/-- Embedding of `async_main_device` from `script.py`: an unknown
`os_name` is logged and skipped; a `RuntimeError` from prepare/login is
caught, logged and the device skipped; any other exception escapes the
task; otherwise — the boolean result of `login` is never examined — one
start task per configured collector is created. -/
def async_main_device (knownDrivers : List String) (collectors : List String)
    (rec : InventoryRec) (login : LoginOutcome) : MainDeviceResult :=
  if ¬ (rec.os_name ∈ knownDrivers) then
    { logs := [⟨.error, rec.host ++ " uses os_name " ++ rec.os_name ++
        " not found in config, skipping."⟩],
      startedCollectors := [], crashed := false }
  else
    match login with
    | .raisesRuntimeError _ =>
        { logs := [⟨.error, rec.host ++ ": failed to authenticate to device, skipping."⟩],
          startedCollectors := [], crashed := false }
    | .raisesOther _ =>
        { logs := [], startedCollectors := [], crashed := true }
    | .returns _ =>
        { logs := [], startedCollectors := collectors, crashed := false }

/-- Embedding of `Device.login` from `drivers/ios_ssh.py` after the
transport is open: when the probe command `show users` raises, the
failure is logged at error severity and the coroutine returns `False`
instead of raising. -/
def ios_ssh_login (name : String) (showUsersExc : Option String) :
    List LogEntry × LoginOutcome :=
  match showUsersExc with
  | some exc =>
      ([⟨.error, name ++ " No IOS SSH access: " ++ exc ++ ", skipping."⟩],
        .returns false)
  | none => ([], .returns true)

/-- Per-device independence of the bootstrap: the main loop creates one
`async_main_device` task per inventory record. -/
def main_loop (knownDrivers : List String) (collectors : List String)
    (recs : List (InventoryRec × LoginOutcome)) : List MainDeviceResult :=
  recs.map fun p => async_main_device knownDrivers collectors p.1 p.2

/-- Claim C7 (code bug): the `ios_ssh` driver reports a failed session
handshake by returning `False` (after logging the failure), but
`async_main_device` never examines `login`'s result, so the collector
scheduling loops are started anyway; the RuntimeError path and
per-device independence behave as the claim says. -/
theorem c7_failed_login_still_schedules :
    (∀ name exc,
      (ios_ssh_login name (some exc)).2 = .returns false ∧
      LogEntry.mk .error (name ++ " No IOS SSH access: " ++ exc ++ ", skipping.") ∈
        (ios_ssh_login name (some exc)).1) ∧
    (∀ knownDrivers collectors rec b, rec.os_name ∈ knownDrivers →
      (async_main_device knownDrivers collectors rec (.returns b)).startedCollectors =
        collectors) ∧
    (∀ knownDrivers collectors rec msg,
      (async_main_device knownDrivers collectors rec
        (.raisesRuntimeError msg)).startedCollectors = []) ∧
    (∀ knownDrivers collectors recs i,
      (main_loop knownDrivers collectors recs).get? i =
        (recs.get? i).map fun p => async_main_device knownDrivers collectors p.1 p.2) := by
  refine ⟨fun name exc => ⟨rfl, List.mem_cons_self ..⟩, ?_, ?_, ?_⟩
  · intro knownDrivers collectors rec b hmem
    rw [async_main_device, if_neg (by simpa using hmem)]
  · intro knownDrivers collectors rec msg
    rw [async_main_device]
    by_cases hmem : rec.os_name ∈ knownDrivers
    · rw [if_neg (by simpa using hmem)]
    · rw [if_pos (by simpa using hmem)]
  · intro knownDrivers collectors recs i
    rw [main_loop, List.get?_map]

/-- Concrete instantiation of `c7_failed_login_still_schedules`, the
failing scenario: an IOS device whose `show users` probe raises gets
`returns false` from `login`, yet the `ifdom` collector loop is started
for it. -/
theorem c7_failed_login_still_schedules_witness :
    (ios_ssh_login "sw1" (some "timeout")).2 = .returns false ∧
    (async_main_device ["ios"] ["ifdom"] ⟨"sw1", "ios"⟩
      (ios_ssh_login "sw1" (some "timeout")).2).startedCollectors = ["ifdom"] := by
  have h := c7_failed_login_still_schedules
  refine ⟨(h.1 "sw1" "timeout").1, ?_⟩
  rw [(h.1 "sw1" "timeout").1]
  exact h.2.1 ["ios"] ["ifdom"] ⟨"sw1", "ios"⟩ false (by decide)
